import Mathlib

/-!
Verification of the goutil utility library (identifier generation,
integrity-checked file ingestion, file persistence, batch deletion).

The Go source is shallowly embedded: bytes are `Nat` (values < 256),
machine `int64` arithmetic is `Int` with explicit wrap at `2 ^ 64`,
errors are `Option String` / explicit error values, and the filesystem
touched by `os.Remove` is passed as explicit state.
-/

namespace Goutil

/-! ## String helpers (strings.ToLower, strings.Contains, NoCaseContains, ErrorContains) -/

/-- One step of Go `strings.Contains` on character lists: `hasSub sub s`
reports whether `sub` occurs contiguously inside `s`. -/
def hasSub (sub : List Char) : List Char → Bool
  | [] => sub.isEmpty
  | c :: rest => sub.isPrefixOf (c :: rest) || hasSub sub rest

/-- Go `strings.ToLower` restricted to ASCII (the only case the library's
not-found phrases exercise), applied to a character list. -/
def lowerList (l : List Char) : List Char := l.map Char.toLower

/-- Go `strings.Contains(s, substr)`. -/
def Contains (s substr : String) : Bool := hasSub substr.data s.data

/-- Embeds `NoCaseContains` (src/unnamed/part_002, lines 254-258):
lowercase both strings, then substring containment. -/
def NoCaseContains (s substr : String) : Bool :=
  hasSub (lowerList substr.data) (lowerList s.data)

/-- Embeds `ErrorContains` (src/unnamed/part_002, lines 246-251): `false`
on a nil error, otherwise `NoCaseContains` on the error message. -/
def ErrorContains (err : Option String) (substr : String) : Bool :=
  match err with
  | none => false
  | some e => NoCaseContains e substr

/-! ## SHA-256 (crypto/sha256 + encoding/hex, as used by Sha256Hex)

A byte is a `Nat` below 256; 32-bit words are `Nat` with explicit
reduction `% 2 ^ 32`. -/

/-- Reduce to a 32-bit word. -/
def w32 (n : Nat) : Nat := n % 4294967296

/-- Right rotation of a 32-bit word by `k` bits. -/
def rotr32 (k x : Nat) : Nat := w32 ((x >>> k) ||| (x <<< (32 - k)))

/-- The SHA-256 round constants (FIPS 180-4), as decimal 32-bit values. -/
def shaK : List Nat :=
  [1116352408, 1899447441, 3049323471, 3921009573, 961987163,
   1508970993, 2453635748, 2870763221, 3624381080, 310598401,
   607225278, 1426881987, 1925078388, 2162078206, 2614888103,
   3248222580, 3835390401, 4022224774, 264347078, 604807628,
   770255983, 1249150122, 1555081692, 1996064986, 2554220882,
   2821834349, 2952996808, 3210313671, 3336571891, 3584528711,
   113926993, 338241895, 666307205, 773529912, 1294757372,
   1396182291, 1695183700, 1986661051, 2177026350, 2456956037,
   2730485921, 2820302411, 3259730800, 3345764771, 3516065817,
   3600352804, 4094571909, 275423344, 430227734, 506948616,
   659060556, 883997877, 958139571, 1322822218, 1537002063,
   1747873779, 1955562222, 2024104815, 2227730452, 2361852424,
   2428436474, 2756734187, 3204031479, 3329325298]

/-- The SHA-256 initial hash state (FIPS 180-4), as decimal 32-bit values. -/
def shaH0 : List Nat :=
  [1779033703, 3144134277, 1013904242, 2773480762,
   1359893119, 2600822924, 528734635, 1541459225]

/-- The `k` big-endian bytes of `n`. -/
def natToBytesBE : Nat → Nat → List Nat
  | 0, _ => []
  | k + 1, n => natToBytesBE k (n / 256) ++ [n % 256]

/-- SHA-256 padding: append `0x80`, zeros to 56 mod 64, then the bit
length as 8 big-endian bytes. -/
def padMessage (msg : List Nat) : List Nat :=
  let L := msg.length
  let k := (119 - L % 64) % 64
  msg ++ [128] ++ List.replicate k 0 ++ natToBytesBE 8 (8 * L)

/-- Group bytes into big-endian 32-bit words. -/
def bytesToWords : List Nat → List Nat
  | a :: b :: c :: d :: rest => (a * 16777216 + b * 65536 + c * 256 + d) :: bytesToWords rest
  | _ => []

/-- Split a word list into 16-word blocks (fuel-driven for structural
recursion; called with the list length as fuel). -/
def toBlocks : Nat → List Nat → List (List Nat)
  | 0, _ => []
  | _, [] => []
  | fuel + 1, ws => ws.take 16 :: toBlocks fuel (ws.drop 16)

/-- Extend a 16-word block to the 64-word message schedule (48 steps). -/
def extendSchedule : Nat → List Nat → List Nat
  | 0, w => w
  | fuel + 1, w =>
    let i := w.length
    let x15 := w.getD (i - 15) 0
    let x2 := w.getD (i - 2) 0
    let s0 := rotr32 7 x15 ^^^ rotr32 18 x15 ^^^ (x15 >>> 3)
    let s1 := rotr32 17 x2 ^^^ rotr32 19 x2 ^^^ (x2 >>> 10)
    extendSchedule fuel (w ++ [w32 (w.getD (i - 16) 0 + s0 + w.getD (i - 7) 0 + s1)])

/-- The SHA-256 compression rounds over paired round constants and
schedule words; the state is the 8 working words a..h. -/
def compressRounds : List (Nat × Nat) → List Nat → List Nat
  | [], st => st
  | (k, wd) :: rest, st =>
    let a := st.getD 0 0
    let b := st.getD 1 0
    let c := st.getD 2 0
    let d := st.getD 3 0
    let e := st.getD 4 0
    let f := st.getD 5 0
    let g := st.getD 6 0
    let h := st.getD 7 0
    let bigS1 := rotr32 6 e ^^^ rotr32 11 e ^^^ rotr32 25 e
    let ch := (e &&& f) ^^^ ((e ^^^ 4294967295) &&& g)
    let temp1 := w32 (h + bigS1 + ch + k + wd)
    let bigS0 := rotr32 2 a ^^^ rotr32 13 a ^^^ rotr32 22 a
    let maj := (a &&& b) ^^^ (a &&& c) ^^^ (b &&& c)
    let temp2 := w32 (bigS0 + maj)
    compressRounds rest [w32 (temp1 + temp2), a, b, c, w32 (d + temp1), e, f, g]

/-- Process one 512-bit block: extend the schedule, run the 64 rounds,
add the result into the running state. -/
def processBlock (st block : List Nat) : List Nat :=
  let w := extendSchedule 48 block
  let st2 := compressRounds (shaK.zip w) st
  (st.zip st2).map (fun p => w32 (p.1 + p.2))

/-- SHA-256 of a byte sequence, as its 32 digest bytes. -/
def sha256 (msg : List Nat) : List Nat :=
  let words := bytesToWords (padMessage msg)
  let final := (toBlocks words.length words).foldl processBlock shaH0
  (final.map (natToBytesBE 4)).flatten

/-- A lowercase hexadecimal digit, as emitted by `hex.EncodeToString`. -/
def hexDigitChar (d : Nat) : Char :=
  if d < 10 then Char.ofNat (48 + d) else Char.ofNat (87 + d)

/-- Embeds `Sha256Hex` (src/goutil.go, lines 169-172): the SHA-256 digest
rendered as lowercase hex. -/
def Sha256Hex (data : List Nat) : String :=
  String.mk (((sha256 data).map (fun b => [hexDigitChar (b / 16), hexDigitChar (b % 16)])).flatten)

/-! ## File ingestion (GetFileContents)

The upload request is embedded as the outcome of its read stages: the
`FormFile` call, the `ReadAll` call on the returned stream, and the
`checksum` form field. Go error values keep their provenance: an error
propagated from the stream is distinguishable (by identity) from the
fresh value `errors.New` builds, which the constructor tag models. -/

/-- An error value as `GetFileContents` can return: one propagated from
`FormFile` / `ReadAll`, or one freshly built by `errors.New`. -/
inductive UploadError where
  | streamErr (msg : String)
  | newError (msg : String)
deriving DecidableEq

/-- The read-relevant content of an upload request. -/
structure UploadRequest where
  formFile : Except String (List Nat)
  readErr : Option String
  checksum : String

/-- Embeds `GetFileContents` (src/goutil.go, lines 148-166): propagate a
`FormFile` error, propagate a `ReadAll` error, then reject with
`errors.New "checksums do not match"` unless the SHA-256 hex digest of
the contents equals the `checksum` form value. -/
def GetFileContents (r : UploadRequest) : Except UploadError (List Nat) :=
  match r.formFile with
  | .error e => .error (.streamErr e)
  | .ok contents =>
    match r.readErr with
    | some e => .error (.streamErr e)
    | none =>
      if Sha256Hex contents ≠ r.checksum then .error (.newError "checksums do not match")
      else .ok contents

/-! ## Batch deletion (DeleteFiles, WrapErrors)

The filesystem state visible to `os.Remove` is explicit: the set of
present (removable) paths, plus a map of paths whose removal fails with
a designated error message (permission problems and the like). -/

/-- Filesystem state for the batch-deletion model. -/
structure FS where
  files : List String
  failMsg : String → Option String

/-- Model of `os.Remove`: a path with a designated failure message fails
with it and leaves the state unchanged; otherwise a present path is
removed, and an absent path fails with Go's Unix not-found message. -/
def osRemove (fs : FS) (path : String) : FS × Option String :=
  match fs.failMsg path with
  | some e => (fs, some e)
  | none =>
    if fs.files.contains path then
      ({ fs with files := fs.files.erase path }, none)
    else
      (fs, some ("remove " ++ path ++ ": no such file or directory"))

/-- Embeds `DeleteFiles` (src/unnamed/part_002, lines 202-213): remove the
paths in order; on an error that case-insensitively contains "cannot find"
or "no such file", continue; on any other error, return it at once. -/
def DeleteFiles (fs : FS) : List String → FS × Option String
  | [] => (fs, none)
  | f :: rest =>
    match osRemove fs f with
    | (fs1, none) => DeleteFiles fs1 rest
    | (fs1, some err) =>
      if ErrorContains (some err) "cannot find" || ErrorContains (some err) "no such file" then
        DeleteFiles fs1 rest
      else
        (fs1, some err)

/-- Embeds `WrapErrors` (src/unnamed/part_002, lines 231-242): fold the
errors, skipping nils; a later error is prepended as
`err ++ " | " ++ wrapped`, so the most recent error comes first. -/
def WrapErrors (allErrors : List (Option String)) : Option String :=
  allErrors.foldl
    (fun wrapped err =>
      match err with
      | none => wrapped
      | some e =>
        match wrapped with
        | none => some e
        | some w => some (e ++ " | " ++ w))
    none

/-! ### Supporting lemmas for batch deletion -/

/-- A substring of the suffix is a substring of the whole list. -/
theorem hasSub_append_left (sub l2 : List Char) (l1 : List Char)
    (h : hasSub sub l2 = true) : hasSub sub (l1 ++ l2) = true := by
  induction l1 with
  | nil => simpa using h
  | cons c l1 ih =>
    simp only [List.cons_append, hasSub, Bool.or_eq_true]
    exact Or.inr ih

/-- `osRemove` never changes the failure map. -/
theorem osRemove_failMsg (fs : FS) (p : String) :
    ((osRemove fs p).1).failMsg = fs.failMsg := by
  unfold osRemove
  cases h : fs.failMsg p with
  | some e => rfl
  | none =>
    by_cases hc : p ∈ fs.files
    · simp [hc]
    · simp [hc]

/-- Go's Unix not-found message always matches the "no such file" phrase. -/
theorem notFound_message_matches (p : String) :
    ErrorContains (some ("remove " ++ p ++ ": no such file or directory"))
      "no such file" = true := by
  show NoCaseContains ("remove " ++ p ++ ": no such file or directory") "no such file" = true
  unfold NoCaseContains
  have hdata : ("remove " ++ p ++ ": no such file or directory").data
      = ("remove ".data ++ p.data) ++ ": no such file or directory".data := rfl
  rw [hdata]
  unfold lowerList
  rw [List.map_append]
  apply hasSub_append_left
  decide

/-! ## File persistence: content semantics (CreateReturnFile)

`os.OpenFile(filePath, O_RDWR|O_CREATE, 0600)` keeps the existing bytes
of an existing file (there is no `O_TRUNC` in the flags) and positions
the handle at offset 0; `io.Copy` then writes the source bytes from
offset 0. The file is embedded as its byte list: `none` existing content
means the path was absent and the open created an empty file. -/

namespace FileContent

/-- Embeds the successful path of `CreateReturnFile` (src/goutil.go,
lines 185-195) at the level of file contents: the copy overwrites the
first `src.length` bytes in place and leaves any longer existing tail
untouched; the returned size is the number of bytes copied. -/
def CreateReturnFile (existing : Option (List Nat)) (src : List Nat) : Int × List Nat :=
  let old := existing.getD []
  (src.length, src ++ old.drop src.length)

end FileContent

/-! ## File persistence: handle semantics (CreateFile / CreateReturnFile)

For the resource claim the calls are embedded by their observable
open/close behaviour. The inputs are the outcomes of the two fallible
steps (`os.OpenFile` and `io.Copy`); the output records the returned
size, the returned `*os.File` (nil or not), the returned error, and
whether the OS handle opened by `os.OpenFile` is still open when the
call returns. -/

namespace FileHandle

/-- Outcome of a persist call, with handle bookkeeping. -/
structure PersistOutcome where
  size : Int
  file : Option Unit
  err : Option String
  handleStillOpen : Bool
deriving DecidableEq

/-- Embeds `CreateReturnFile` (src/goutil.go, lines 185-195): on open
failure no handle was created; on copy failure the function returns
`(0, nil, err)` without calling `f.Close()`, so the opened handle stays
open; on success the open handle is returned to the caller. -/
def CreateReturnFile (openErr : Option String) (copyRes : Except String Int) : PersistOutcome :=
  match openErr with
  | some e => { size := 0, file := none, err := some e, handleStillOpen := false }
  | none =>
    match copyRes with
    | .error e => { size := 0, file := none, err := some e, handleStillOpen := true }
    | .ok n => { size := n, file := some (), err := none, handleStillOpen := true }

/-- Embeds `CreateFile` (src/goutil.go, lines 175-181): call
`CreateReturnFile` and call `file.Close()` only when the error is nil.
Returns the error and whether the opened OS handle is still open. -/
def CreateFile (openErr : Option String) (copyRes : Except String Int) : Option String × Bool :=
  let r := CreateReturnFile openErr copyRes
  match r.err with
  | none => (none, false)
  | some e => (some e, r.handleStillOpen)

end FileHandle

/-! ## Identifier generation (NewID)

`NewID` draws `n` in `[0, 100000000)`, reads the Unix timestamp, computes
`idInt64 := timestamp*max + n.Int64()` in `int64` arithmetic, and renders
it with `strconv.FormatInt(idInt64, 36)`. The `int64` arithmetic is `Int`
with explicit wrap into `[-2 ^ 63, 2 ^ 63)`. -/

/-- Two's-complement wrap of an integer into the `int64` range. -/
def wrap64 (z : Int) : Int := (z + 9223372036854775808) % 18446744073709551616 - 9223372036854775808

/-- The `int64` value `timestamp*max + n` as the Go expression computes
it (src/goutil.go, line 45), with 64-bit wraparound. -/
def newIDInt64 (timestamp n : Int) : Int := wrap64 (wrap64 (timestamp * 100000000) + n)

/-- The mathematical value `timestamp * 100000000 + n` that the id
encodes when no overflow occurs. -/
def newIDValue (timestamp n : Int) : Int := timestamp * 100000000 + n

/-- A base-36 digit character, lowercase, as used by
`strconv.FormatInt(_, 36)`. -/
def digitChar36 (d : Nat) : Char :=
  if d < 10 then Char.ofNat (48 + d) else Char.ofNat (87 + d)

/-- `strconv.FormatInt(v, 36)` for a nonnegative value: most significant
digit first, no padding, `"0"` for zero. -/
def formatNat36 (v : Nat) : String :=
  if v = 0 then "0" else String.mk (((Nat.digits 36 v).map digitChar36).reverse)

/-- `strconv.FormatInt(v, 36)` on `int64` values: a leading minus sign
for negative values. -/
def FormatInt36 (v : Int) : String :=
  if v < 0 then "-" ++ formatNat36 (-v).toNat else formatNat36 v.toNat

/-- Embeds `NewID` (src/goutil.go, lines 38-47) as a function of the two
ambient inputs (clock reading and random draw): render the `int64` id
value in base 36. -/
def NewID (timestamp n : Int) : String := FormatInt36 (newIDInt64 timestamp n)

/-- The numeric value of a base-36 digit character (inverse of
`digitChar36`). -/
def charVal36 (c : Char) : Nat :=
  if c.toNat ≤ 57 then c.toNat - 48 else c.toNat - 87

/-- Decode a base-36 rendering back to its numeric value. -/
def decodeNat36 (s : String) : Nat :=
  Nat.ofDigits 36 ((s.data.map charVal36).reverse)

/-- Decoding inverts `digitChar36` digit by digit. -/
theorem charVal36_digitChar36 : ∀ d, d < 36 → charVal36 (digitChar36 d) = d := by decide

/-- Decoding a base-36 rendering of a nonnegative value recovers it. -/
theorem decodeNat36_formatNat36 (v : Nat) : decodeNat36 (formatNat36 v) = v := by
  unfold formatNat36
  by_cases hv : v = 0
  · subst hv
    simp [decodeNat36, charVal36, Nat.ofDigits]
  · simp only [hv, if_false]
    unfold decodeNat36
    show Nat.ofDigits 36 (((((Nat.digits 36 v).map digitChar36).reverse).map charVal36).reverse) = v
    rw [List.map_reverse, List.reverse_reverse, List.map_map]
    have hmap : (Nat.digits 36 v).map (charVal36 ∘ digitChar36) = Nat.digits 36 v := by
      conv_rhs => rw [← List.map_id (Nat.digits 36 v)]
      apply List.map_congr_left
      intro d hd
      exact charVal36_digitChar36 d (Nat.digits_lt_base (by norm_num) hd)
    rw [hmap, Nat.ofDigits_digits]

/-! ## Further supporting lemmas -/

/-- When `osRemove` reports an error, the filesystem state is unchanged. -/
theorem osRemove_err_state (fs fs1 : FS) (p e : String)
    (h : osRemove fs p = (fs1, some e)) : fs1 = fs := by
  unfold osRemove at h
  cases hm : fs.failMsg p with
  | some e2 =>
    rw [hm] at h
    simp at h
    exact h.1.symm
  | none =>
    rw [hm] at h
    by_cases hc : p ∈ fs.files
    · simp [hc] at h
    · simp [hc] at h
      exact h.1.symm

/-- The `int64` wrap is the identity on values already in range. -/
theorem wrap64_eq_of_lt (z : Int) (h0 : 0 ≤ z) (h1 : z < 9223372036854775808) :
    wrap64 z = z := by
  unfold wrap64
  rw [Int.emod_eq_of_lt (by linarith) (by linarith)]
  ring

/-! ## The claims -/

/-- C1: the claim says Persist opens the target truncating existing
content, so writing 5 bytes over a 100-byte file leaves a 5-byte file.
The open flags are `O_RDWR|O_CREATE` with no `O_TRUNC`, so the code
keeps the stale tail: at the failing input (a 100-byte existing file, a
5-byte source) the resulting file still has 100 bytes, while the
returned count is 5. -/
theorem CreateReturnFile_keeps_stale_tail :
    (FileContent.CreateReturnFile (some (List.replicate 100 120)) [104, 101, 108, 108, 111]).1 = 5 ∧
    ((FileContent.CreateReturnFile (some (List.replicate 100 120)) [104, 101, 108, 108, 111]).2).length
      = 100 := by
  decide

/-- C2 counterexample: with path "a" failing with "permission denied" and
path "b" present and removable, `DeleteFiles ["a", "b"]` returns at once:
"b" is still present afterwards, so its removal was never attempted,
refuting the no-short-circuit claim. -/
theorem DeleteFiles_does_not_attempt_after_failure :
    ((DeleteFiles ⟨["b"], fun p => if p = "a" then some "permission denied" else none⟩
        ["a", "b"]).1.files = ["b"]) ∧
    ((DeleteFiles ⟨["b"], fun p => if p = "a" then some "permission denied" else none⟩
        ["a", "b"]).2 = some "permission denied") := by
  decide

/-- C2 amended: `DeleteFiles` attempts removals in order but
short-circuits: at the first failure whose message is not a not-found
message it returns that error immediately, leaving the remaining paths
unattempted. -/
theorem DeleteFiles_short_circuits (fs fs1 : FS) (f e : String) (rest : List String)
    (h1 : osRemove fs f = (fs1, some e))
    (h2 : (ErrorContains (some e) "cannot find" || ErrorContains (some e) "no such file")
      = false) :
    DeleteFiles fs (f :: rest) = (fs1, some e) := by
  simp [DeleteFiles, h1, h2]

/-- C2 witness: the amended short-circuit behaviour at a concrete
filesystem with a permission failure on "a" and "b" still removable. -/
theorem DeleteFiles_short_circuits_witness :
    DeleteFiles ⟨["b"], fun p => if p = "a" then some "permission denied" else none⟩ ["a", "b"]
      = (⟨["b"], fun p => if p = "a" then some "permission denied" else none⟩,
         some "permission denied") :=
  DeleteFiles_short_circuits _ _ "a" "permission denied" ["b"] rfl (by decide)

/-- C3 counterexample: with "a" failing with "permission denied" and "c"
failing with "disk full", the returned error is exactly "permission
denied": the second failure's message is not preserved, refuting the
aggregate-error claim (and the most-recent-first order it asserts). -/
theorem DeleteFiles_second_failure_unreported :
    ((DeleteFiles
        ⟨[], fun p => if p = "a" then some "permission denied"
          else if p = "c" then some "disk full" else none⟩
        ["a", "c"]).2 = some "permission denied") ∧
    NoCaseContains "permission denied" "disk full" = false := by
  decide

/-- C3 amended: with two or more non-not-found failures, `DeleteFiles`
returns the first such failure's error alone, unchanged; it performs no
aggregation (the library's `WrapErrors` would chain messages
most-recent-first, but `DeleteFiles` never calls it). -/
theorem DeleteFiles_returns_first_failure_only (fs fs1 : FS) (f1 f2 e1 : String)
    (rest : List String)
    (h1 : osRemove fs f1 = (fs1, some e1))
    (h2 : (ErrorContains (some e1) "cannot find" || ErrorContains (some e1) "no such file")
      = false) :
    (DeleteFiles fs (f1 :: f2 :: rest)).2 = some e1 := by
  simp [DeleteFiles, h1, h2]

/-- C3 witness: the amended first-failure-only behaviour at a concrete
filesystem where "a" and "c" both fail with distinct messages. -/
theorem DeleteFiles_returns_first_failure_only_witness :
    (DeleteFiles
        ⟨[], fun p => if p = "a" then some "permission denied"
          else if p = "c" then some "disk full" else none⟩
        ["a", "c"]).2 = some "permission denied" :=
  DeleteFiles_returns_first_failure_only _ _ "a" "c" "permission denied" [] rfl (by decide)

/-- C4: the claim says `CreateFile` releases the file handle on every
exit path. On the path where the open succeeds and the copy fails,
`CreateReturnFile` returns `(0, nil, err)` without closing the opened
file, and `CreateFile` closes only when the error is nil — so at the
failing input the call returns with the OS handle still open and a nil
file, which the caller cannot close either. -/
theorem CreateFile_handle_open_after_copy_error :
    FileHandle.CreateFile none (.error "unexpected EOF") = (some "unexpected EOF", true) ∧
    (FileHandle.CreateReturnFile none (.error "unexpected EOF")).file = none := by
  decide

/-- C5: when the stream is read successfully but the SHA-256 hex digest
of its contents differs from the claimed checksum, `GetFileContents`
returns no buffer and the fixed `errors.New` integrity error, which is a
different error value from any error propagated from the stream. -/
theorem GetFileContents_mismatch_integrity_error (r : UploadRequest) (contents : List Nat)
    (hfile : r.formFile = .ok contents) (hread : r.readErr = none)
    (hmi : Sha256Hex contents ≠ r.checksum) :
    GetFileContents r = .error (.newError "checksums do not match") ∧
    ∀ e, (UploadError.newError "checksums do not match") ≠ UploadError.streamErr e := by
  refine ⟨?_, ?_⟩
  · simp [GetFileContents, hfile, hread, hmi]
  · intro e h
    cases h

set_option maxRecDepth 10000 in
/-- C5 witness: a concrete request whose stream reads an empty file and
whose checksum field is empty (and so mismatches the digest). -/
theorem GetFileContents_mismatch_integrity_error_witness :
    GetFileContents ⟨.ok [], none, ""⟩ = .error (.newError "checksums do not match") ∧
    ∀ e, (UploadError.newError "checksums do not match") ≠ UploadError.streamErr e :=
  GetFileContents_mismatch_integrity_error ⟨.ok [], none, ""⟩ [] rfl rfl (by decide)

/-- C6: a removal failure whose message case-insensitively contains one
of the known not-found phrases is treated as success: the state is
unchanged and the batch continues with the remaining paths, contributing
no error — deletion of an absent path is idempotent. -/
theorem DeleteFiles_notfound_is_success (fs fs1 : FS) (f e : String) (rest : List String)
    (h1 : osRemove fs f = (fs1, some e))
    (h2 : (ErrorContains (some e) "cannot find" || ErrorContains (some e) "no such file")
      = true) :
    DeleteFiles fs (f :: rest) = DeleteFiles fs rest := by
  have hst : fs1 = fs := osRemove_err_state fs fs1 f e h1
  subst hst
  simp [DeleteFiles, h1, h2]

/-- C6 witness: a concrete filesystem where removing "x" fails with a
mixed-case Windows-style not-found message; the batch skips it. -/
theorem DeleteFiles_notfound_is_success_witness :
    DeleteFiles
        ⟨[], fun p => if p = "x" then some "The system Cannot Find the file specified" else none⟩
        ["x", "y"]
      = DeleteFiles
        ⟨[], fun p => if p = "x" then some "The system Cannot Find the file specified" else none⟩
        ["y"] :=
  DeleteFiles_notfound_is_success _ _ "x" "The system Cannot Find the file specified" ["y"]
    rfl (by decide)

/-- C7: for two ids with timestamps at least one second apart and random
components in `[0, 100000000)`, the later id's decoded value
`t*100000000 + r` is strictly greater than the earlier one's. -/
theorem newIDValue_strict_mono (t1 t2 r1 r2 : Int)
    (ht : t1 + 1 ≤ t2) (hr1 : 0 ≤ r1) (hr1b : r1 < 100000000)
    (hr2 : 0 ≤ r2) (hr2b : r2 < 100000000) :
    newIDValue t1 r1 < newIDValue t2 r2 := by
  unfold newIDValue
  have h := mul_le_mul_of_nonneg_right ht (show (0 : Int) ≤ 100000000 by norm_num)
  nlinarith

/-- C7 witness: the last id of one second is below the first id of the
next second. -/
theorem newIDValue_strict_mono_witness :
    newIDValue 1700000000 99999999 < newIDValue 1700000001 0 :=
  newIDValue_strict_mono 1700000000 1700000001 99999999 0 (by norm_num) (by norm_num)
    (by norm_num) (by norm_num) (by norm_num)

/-- C8: the checksum comparison `Sha256Hex bytes == claimed` succeeds
when the claimed digest is the digest of the bytes, and fails whenever
the claimed string differs from it at all (exact, case-sensitive string
equality). -/
theorem Sha256Hex_verify_roundtrip_sensitivity (bs : List Nat) (claimed : String) :
    (claimed = Sha256Hex bs → (Sha256Hex bs == claimed) = true) ∧
    (claimed ≠ Sha256Hex bs → (Sha256Hex bs == claimed) = false) := by
  refine ⟨fun h => ?_, fun h => ?_⟩
  · exact beq_iff_eq.mpr h.symm
  · exact beq_eq_false_iff_ne.mpr (fun hh => h hh.symm)

set_option maxRecDepth 10000 in
/-- C8 witness: the empty input verifies against its own digest, and an
empty claimed digest is rejected. -/
theorem Sha256Hex_verify_roundtrip_sensitivity_witness :
    (Sha256Hex [] == Sha256Hex []) = true ∧ (Sha256Hex [] == "") = false :=
  ⟨(Sha256Hex_verify_roundtrip_sensitivity [] (Sha256Hex [])).1 rfl,
   (Sha256Hex_verify_roundtrip_sensitivity [] "").2 (by decide)⟩

/-- C9 counterexample: at timestamp 92233720368 (inside the claimed safe
range) with random component 99999999, the `int64` computation
`t*100000000 + r` wraps negative, so it does not equal the mathematical
value — refuting the claimed bound `t ≤ 92233720368`. -/
theorem newIDInt64_overflow_at_bound :
    newIDInt64 92233720368 99999999 ≠ newIDValue 92233720368 99999999 ∧
    newIDInt64 92233720368 99999999 < 0 := by
  decide

/-- C9 amended: for timestamps `0 ≤ t ≤ 92233720367` and random draws
`0 ≤ r < 100000000`, the `int64` computation does not overflow and the
rendered base-36 id decodes to exactly `t*100000000 + r`. -/
theorem newIDInt64_no_overflow_below_bound (t r : Int)
    (ht0 : 0 ≤ t) (ht : t ≤ 92233720367) (hr0 : 0 ≤ r) (hr : r < 100000000) :
    newIDInt64 t r = newIDValue t r ∧
    (decodeNat36 (NewID t r) : Int) = newIDValue t r := by
  have hmul0 : (0 : Int) ≤ t * 100000000 := by positivity
  have hmul1 : t * 100000000 ≤ 9223372036700000000 := by
    have := mul_le_mul_of_nonneg_right ht (show (0 : Int) ≤ 100000000 by norm_num)
    linarith
  have hinner : wrap64 (t * 100000000) = t * 100000000 :=
    wrap64_eq_of_lt _ hmul0 (by linarith)
  have houter : wrap64 (t * 100000000 + r) = t * 100000000 + r :=
    wrap64_eq_of_lt _ (by linarith) (by linarith)
  have hval : newIDInt64 t r = newIDValue t r := by
    unfold newIDInt64 newIDValue
    rw [hinner, houter]
  refine ⟨hval, ?_⟩
  have hpos : 0 ≤ newIDValue t r := by
    unfold newIDValue
    linarith
  unfold NewID
  rw [hval]
  unfold FormatInt36
  rw [if_neg (by omega)]
  rw [decodeNat36_formatNat36]
  exact Int.toNat_of_nonneg hpos

/-- C9 witness: the amended no-overflow statement at a realistic
timestamp. -/
theorem newIDInt64_no_overflow_below_bound_witness :
    newIDInt64 1700000000 12345 = newIDValue 1700000000 12345 ∧
    (decodeNat36 (NewID 1700000000 12345) : Int) = newIDValue 1700000000 12345 :=
  newIDInt64_no_overflow_below_bound 1700000000 12345 (by norm_num) (by norm_num)
    (by norm_num) (by norm_num)

/-- C10: when every path in the list either is removable, is absent (its
removal fails with the Unix not-found message), or has a designated
failure message that matches the not-found phrases, `DeleteFiles`
returns nil; in particular it returns nil on the empty list. -/
theorem DeleteFiles_nil_error_when_all_notfound_or_ok (fs : FS) (files : List String)
    (h : files.all (fun f =>
        match fs.failMsg f with
        | some e => ErrorContains (some e) "cannot find" || ErrorContains (some e) "no such file"
        | none => true) = true) :
    (DeleteFiles fs files).2 = none := by
  induction files generalizing fs with
  | nil => rfl
  | cons f rest ih =>
    rw [List.all_cons, Bool.and_eq_true] at h
    obtain ⟨hf, hrest⟩ := h
    show (DeleteFiles fs (f :: rest)).2 = none
    unfold DeleteFiles
    cases hm : fs.failMsg f with
    | some e =>
      rw [hm] at hf
      have hf2 : (ErrorContains (some e) "cannot find" ||
          ErrorContains (some e) "no such file") = true := hf
      have hrm : osRemove fs f = (fs, some e) := by
        unfold osRemove
        rw [hm]
      rw [hrm]
      show (if (ErrorContains (some e) "cannot find" ||
          ErrorContains (some e) "no such file") = true
        then DeleteFiles fs rest else (fs, some e)).2 = none
      rw [if_pos hf2]
      exact ih fs hrest
    | none =>
      by_cases hc : f ∈ fs.files
      · have hrm : osRemove fs f = ({ fs with files := fs.files.erase f }, none) := by
          unfold osRemove
          rw [hm]
          simp [hc]
        rw [hrm]
        exact ih _ hrest
      · have hrm : osRemove fs f
            = (fs, some ("remove " ++ f ++ ": no such file or directory")) := by
          unfold osRemove
          rw [hm]
          simp [hc]
        rw [hrm]
        have hnf := notFound_message_matches f
        have hcond : (ErrorContains
              (some ("remove " ++ f ++ ": no such file or directory")) "cannot find" ||
            ErrorContains
              (some ("remove " ++ f ++ ": no such file or directory")) "no such file")
            = true := by
          rw [hnf, Bool.or_true]
        show (if (ErrorContains
              (some ("remove " ++ f ++ ": no such file or directory")) "cannot find" ||
            ErrorContains
              (some ("remove " ++ f ++ ": no such file or directory")) "no such file") = true
          then DeleteFiles fs rest
          else (fs, some ("remove " ++ f ++ ": no such file or directory"))).2 = none
        rw [if_pos hcond]
        exact ih fs hrest

/-- C10 witness: the empty batch and a mixed batch (one removable path,
one absent path, one path failing with a not-found message) both return
nil. -/
theorem DeleteFiles_nil_error_when_all_notfound_or_ok_witness :
    (DeleteFiles ⟨["a"], fun p => if p = "c" then some "No Such File or directory" else none⟩
        []).2 = none ∧
    (DeleteFiles ⟨["a"], fun p => if p = "c" then some "No Such File or directory" else none⟩
        ["a", "b", "c"]).2 = none :=
  ⟨DeleteFiles_nil_error_when_all_notfound_or_ok _ [] (by decide),
   DeleteFiles_nil_error_when_all_notfound_or_ok _ ["a", "b", "c"] (by decide)⟩

end Goutil
